import Mathlib

/-
Verification development for the common-for-services repository.

The development shallowly embeds the transactional-failure observability
pipeline: the alert dispatcher and its four notification channels
(src/utils/alerts.py and src/src/common_for_services/notification/), the
database-transaction middleware
(src/src/common_for_services/middleware/db_transaction.py), and the request
logging middleware (src/src/common_for_services/middleware/logging.py).

External effects (SMTP sessions, HTTP posts, the Twilio client, the Python
logger, time.time(), datetime.now(), Celery send_task) are modelled by an
environment record that fixes, for one run, whether each opaque external
step succeeds or raises, and what the clock readings are.  Each embedded
function returns the trace of observable effects (channel invocations, log
entries, task submissions) together with the uncaught exception, if any.
-/

/-- Alert severity levels (class AlertSeverity, src/utils/alerts.py lines 80-84). -/
inductive AlertSeverity
  | INFO
  | WARNING
  | CRITICAL
deriving DecidableEq

/-- The string name of an AlertSeverity enum member (its .name / value in Python). -/
def AlertSeverity.name : AlertSeverity → String
  | .INFO => "INFO"
  | .WARNING => "WARNING"
  | .CRITICAL => "CRITICAL"

/-- The four notification channels. -/
inductive ChannelName
  | email
  | slack
  | sms
  | webhook
deriving DecidableEq

/-- Per-run channel configuration read from environment variables at module load
(src/utils/alerts.py lines 56-73).  Python truthiness: a channel guarded by
`if not VAR` is unconfigured exactly when the string is empty. -/
structure AlertConfig where
  SLACK_WEBHOOK_URL : String
  TWILIO_ACCOUNT_SID : String
  TWILIO_AUTH_TOKEN : String
  WEBHOOK_URL : String
deriving DecidableEq

/-- The behaviour, in one run, of the opaque external steps of the four channel
functions.  `none` means the step succeeds; `some e` means it raises an
exception whose text is `e`.

`emailBuildErr` is the EmailMessage construction (lines 95-99 of
src/utils/alerts.py), which happens before the try block; `emailSendErr` is
the SMTP connect/starttls/login/send inside the try (lines 101-106).
`smsClientErr` is the Client(...) construction (line 143), before the try;
`smsCreateErr` is client.messages.create inside the try (lines 144-150).
`slackPostErr` and `webhookPostErr` are the requests.post calls, inside
their try blocks. -/
structure AlertEnv where
  cfg : AlertConfig
  emailBuildErr : Option String
  emailSendErr : Option String
  slackPostErr : Option String
  smsClientErr : Option String
  smsCreateErr : Option String
  webhookPostErr : Option String
deriving DecidableEq

/-- The outcome a channel function logs about one delivery attempt:
the success info line, the error line with the caught exception text, or
the warning line for a channel whose configuration is absent. -/
inductive ChannelLogKind
  | sentOk
  | sendFailed (e : String)
  | unconfigured
deriving DecidableEq

/-- One structured log line emitted by the alert module: the initial dispatcher info line (line 185 of src/utils/alerts.py) or a per-channel line. -/
inductive AlertLogEntry
  | dispatching (severity : AlertSeverity) (subject : String)
  | channel (c : ChannelName) (k : ChannelLogKind)
deriving DecidableEq

/-- A channel-function invocation together with its arguments, as performed by
send_alert.  The severity type is a parameter because the utils dispatcher
puts the AlertSeverity enum member in the webhook payload while the
notification-package dispatcher puts a plain string there. -/
inductive ChannelCall (σ : Type)
  | email (subject body : String)
  | slack (message : String)
  | sms (message : String)
  | webhook (subject message : String) (severity : σ)
deriving DecidableEq

/-- The channel a call goes to. -/
def ChannelCall.channelOf {σ : Type} : ChannelCall σ → ChannelName
  | .email _ _ => .email
  | .slack _ => .slack
  | .sms _ => .sms
  | .webhook _ _ _ => .webhook

/-- Embedding of send_alert_email (src/utils/alerts.py lines 86-108).
The EmailMessage construction (set_content and the header assignments) runs
before the try block, so a failure there escapes the function with no log
line; a failure of the SMTP steps inside the try is caught and logged as an
error line.  Returns the log lines and the uncaught exception, if any. -/
def send_alert_email (env : AlertEnv) (_subject _body : String) :
    List AlertLogEntry × Option String :=
  match env.emailBuildErr with
  | some e => ([], some e)
  | none =>
    match env.emailSendErr with
    | some e => ([.channel .email (.sendFailed e)], none)
    | none => ([.channel .email .sentOk], none)

/-- Embedding of send_slack_alert (src/utils/alerts.py lines 111-128; the copy
in src/src/common_for_services/notification/slack.py lines 13-23 has the same
structure).  An empty SLACK_WEBHOOK_URL logs a warning and returns; otherwise
the post is attempted inside a try, so the function never raises. -/
def send_slack_alert (env : AlertEnv) (_message : String) :
    List AlertLogEntry × Option String :=
  if env.cfg.SLACK_WEBHOOK_URL = "" then
    ([.channel .slack .unconfigured], none)
  else
    match env.slackPostErr with
    | some e => ([.channel .slack (.sendFailed e)], none)
    | none => ([.channel .slack .sentOk], none)

/-- Embedding of send_sms_alert (src/utils/alerts.py lines 131-152; the copy in
src/src/common_for_services/notification/sms_twilio.py lines 19-33 has the
same structure).  Missing Twilio credentials log a warning and return.  The
Client(...) construction runs before the try block, so a failure there
escapes the function; a failure of messages.create inside the try is caught
and logged. -/
def send_sms_alert (env : AlertEnv) (_message : String) :
    List AlertLogEntry × Option String :=
  if env.cfg.TWILIO_ACCOUNT_SID = "" ∨ env.cfg.TWILIO_AUTH_TOKEN = "" then
    ([.channel .sms .unconfigured], none)
  else
    match env.smsClientErr with
    | some e => ([], some e)
    | none =>
      match env.smsCreateErr with
      | some e => ([.channel .sms (.sendFailed e)], none)
      | none => ([.channel .sms .sentOk], none)

/-- Embedding of send_webhook_alert (src/utils/alerts.py lines 155-171; the
copy in src/src/common_for_services/notification/web_hook.py lines 13-22 has
the same structure).  An empty WEBHOOK_URL logs a warning and returns;
otherwise the post is attempted inside a try, so the function never raises. -/
def send_webhook_alert (env : AlertEnv) :
    List AlertLogEntry × Option String :=
  if env.cfg.WEBHOOK_URL = "" then
    ([.channel .webhook .unconfigured], none)
  else
    match env.webhookPostErr with
    | some e => ([.channel .webhook (.sendFailed e)], none)
    | none => ([.channel .webhook .sentOk], none)

/-- Runs a sequence of channel steps the way Python sequencing does: each step
is the invocation (recorded with its arguments) paired with the behaviour
of the invoked function; an uncaught exception from one step aborts the
remaining steps and escapes.  Returns the invocations performed, the log
lines emitted, and the uncaught exception, if any. -/
def runChannels :
    List (ChannelCall AlertSeverity × (List AlertLogEntry × Option String)) →
    List (ChannelCall AlertSeverity) × List AlertLogEntry × Option String
  | [] => ([], [], none)
  | (c, (ls, exc)) :: rest =>
    match exc with
    | some e => ([c], ls, some e)
    | none =>
      let r := runChannels rest
      (c :: r.1, ls ++ r.2.1, r.2.2)

/-- The result of one send_alert run: the Python return value (the function
has no return statement, so it returns None, modelled as Unit), the channel
invocations performed, the log lines emitted, and the uncaught exception. -/
structure AlertResult where
  ret : Unit
  calls : List (ChannelCall AlertSeverity)
  logs : List AlertLogEntry
  raised : Option String
deriving DecidableEq

/-- Embedding of send_alert (src/utils/alerts.py lines 175-197): logs the
initial info line, then routes by severity — CRITICAL calls email, slack and
sms; WARNING calls email and slack; INFO calls slack — and finally calls the
generic webhook with the payload dict of subject, message and the severity
enum member.  The dispatcher has no try block of its own, so an exception
escaping a channel function aborts the remaining calls and escapes
send_alert. -/
def send_alert (env : AlertEnv) (subject message : String)
    (severity : AlertSeverity) : AlertResult :=
  let branch : List (ChannelCall AlertSeverity × (List AlertLogEntry × Option String)) :=
    match severity with
    | .CRITICAL =>
      [(.email subject message, send_alert_email env subject message),
       (.slack ("*CRITICAL ALERT*: " ++ message),
        send_slack_alert env ("*CRITICAL ALERT*: " ++ message)),
       (.sms message, send_sms_alert env message)]
    | .WARNING =>
      [(.email subject message, send_alert_email env subject message),
       (.slack ("*WARNING ALERT*: " ++ message),
        send_slack_alert env ("*WARNING ALERT*: " ++ message))]
    | .INFO =>
      [(.slack ("*INFO ALERT*: " ++ message),
        send_slack_alert env ("*INFO ALERT*: " ++ message))]
  let steps := branch ++ [(.webhook subject message severity, send_webhook_alert env)]
  let r := runChannels steps
  { ret := (), calls := r.1, logs := .dispatching severity subject :: r.2.1,
    raised := r.2.2 }

/-- The routing table of spec section 4.2: the ordered set of channels a
dispatch for each severity invokes. -/
def routingTable : AlertSeverity → List ChannelName
  | .CRITICAL => [.email, .slack, .sms, .webhook]
  | .WARNING => [.email, .slack, .webhook]
  | .INFO => [.slack, .webhook]

/-- A DispatchOutcome record of spec section 3: the per-channel result of one
delivery attempt. -/
structure DispatchOutcome where
  channel_name : ChannelName
  succeeded : Bool
  error : Option String
deriving DecidableEq

/-- Abstraction map from the emitted log lines to the DispatchOutcome
records: each channel invocation logs exactly one line, read back as
succeeded for the success info line, failed with the caught text for the
error line, and failed with "unconfigured" for the missing-configuration
warning line. -/
def dispatchOutcomes (logs : List AlertLogEntry) : List DispatchOutcome :=
  logs.filterMap fun l =>
    match l with
    | .dispatching _ _ => none
    | .channel c .sentOk => some ⟨c, true, none⟩
    | .channel c (.sendFailed e) => some ⟨c, false, some e⟩
    | .channel c .unconfigured => some ⟨c, false, some "unconfigured"⟩

/-- Severity of a Python logger call in the middleware: logger.info or
logger.error. -/
inductive MwLevel
  | info
  | error
deriving DecidableEq

/-- An HTTP response as the middleware sees it: the content dict serialized by
json.dumps (modelled as the association list handed to json.dumps), the
media type, and the status code. -/
structure MwResponse where
  content : List (String × String)
  media_type : String
  status_code : Nat
deriving DecidableEq

/-- What the wrapped handler (call_next) does for this request: return a
response, raise a SQLAlchemyError, or raise some other exception (which the
except clause of the middleware does not catch). -/
inductive HandlerResult
  | ok (r : MwResponse)
  | sqlalchemyError (e : String)
  | otherError (e : String)
deriving DecidableEq

/-- One structured log line of DBTransactionMiddleware.dispatch, with the
fields of the log_data dict (src/src/common_for_services/middleware/
db_transaction.py lines 81-91 and 114-124).  response_time is the numeric
process_time formatted into the line; timestamp the datetime.now reading. -/
structure MwLogEntry where
  level : MwLevel
  package : String
  module : String
  log : String
  event : String
  error : Option String
  method : String
  path : String
  response_time : Int
  timestamp : Int
deriving DecidableEq

/-- The result of one dispatch run: either a returned response or an uncaught
exception. -/
inductive MwOutcome
  | response (r : MwResponse)
  | raised (e : String)
deriving DecidableEq

/-- The environment of one DBTransactionMiddleware.dispatch run: the request
descriptor, the behaviour of the wrapped handler, whether a Celery app was
injected, whether logger.error or the first celery send_task call raises,
and the successive readings of time.time() (clock) and datetime.now()
(wallClock), indexed by call order. -/
structure MwEnv where
  method : String
  path : String
  handler : HandlerResult
  celeryPresent : Bool
  logErrorRaises : Option String
  celerySendRaises : Option String
  clock : Nat → Int
  wallClock : Nat → Int

/-- The observable result of one DBTransactionMiddleware.dispatch run: the
outcome, the log lines emitted in order, and the Celery task names
successfully submitted in order. -/
structure MwResult where
  outcome : MwOutcome
  logs : List MwLogEntry
  celeryCalls : List String
deriving DecidableEq

/-- The completion log line emitted by the finally block (lines 111-124 of
db_transaction.py): a logger.info call with event db_transaction_complete
and error None, emitted on every path out of the try statement. -/
def completeEntry (env : MwEnv) (process_time stamp : Int) : MwLogEntry :=
  { level := .info, package := "middleware",
    module := "db_transaction.DBTransactionMiddleware", log := "CRITICAL",
    event := "db_transaction_complete", error := none, method := env.method,
    path := env.path, response_time := process_time, timestamp := stamp }

/-- The error log line built in the except clause (lines 81-91 of
db_transaction.py). -/
def errorEntry (env : MwEnv) (e : String) (process_time stamp : Int) : MwLogEntry :=
  { level := .error, package := "middleware",
    module := "db_transaction.DBTransactionMiddleware", log := "CRITICAL",
    event := "db_transaction_error", error := some e, method := env.method,
    path := env.path, response_time := process_time, timestamp := stamp }

/-- The fixed generic response built in the except clause (lines 105-110 of
db_transaction.py): status 500, media type application/json, content the
json.dumps serialization of the dict with status error and the fixed
Spanish message. -/
def internalErrorResponse : MwResponse :=
  { content := [("status", "error"), ("message", "Error interno en el sistema")],
    media_type := "application/json", status_code := 500 }

/-- Embedding of DBTransactionMiddleware.dispatch
(src/src/common_for_services/middleware/db_transaction.py lines 58-124).
Control flow of the Python try/except/finally:
on normal return of call_next, the finally block runs (one more time.time()
reading, one info completion line) and the handler response is returned
unchanged; on a SQLAlchemyError, the except clause reads the clock, builds
log_data, calls logger.error, submits the two Celery tasks when a Celery app
is present, and returns the fixed 500 response — the finally block running
just before that return; an exception raised by logger.error or by
send_task aborts the except clause, the finally block still runs, and the
exception escapes dispatch; any non-SQLAlchemy exception is not caught, the
finally block runs, and it escapes. -/
def db_dispatch (env : MwEnv) : MwResult :=
  let start_time := env.clock 0
  match env.handler with
  | .ok r =>
    { outcome := .response r,
      logs := [completeEntry env (env.clock 1 - start_time) (env.wallClock 0)],
      celeryCalls := [] }
  | .sqlalchemyError e =>
    let process_time := env.clock 1 - start_time
    match env.logErrorRaises with
    | some ex =>
      { outcome := .raised ex,
        logs := [completeEntry env (env.clock 2 - start_time) (env.wallClock 1)],
        celeryCalls := [] }
    | none =>
      let errLine := errorEntry env e process_time (env.wallClock 0)
      if env.celeryPresent then
        match env.celerySendRaises with
        | some ex =>
          { outcome := .raised ex,
            logs := [errLine,
                     completeEntry env (env.clock 2 - start_time) (env.wallClock 1)],
            celeryCalls := [] }
        | none =>
          { outcome := .response internalErrorResponse,
            logs := [errLine,
                     completeEntry env (env.clock 2 - start_time) (env.wallClock 1)],
            celeryCalls := ["celery_worker.tasks.log_to_logging_service_task",
                            "celery_worker.tasks.send_email_task"] }
      else
        { outcome := .response internalErrorResponse,
          logs := [errLine,
                   completeEntry env (env.clock 2 - start_time) (env.wallClock 1)],
          celeryCalls := [] }
  | .otherError e =>
    { outcome := .raised e,
      logs := [completeEntry env (env.clock 1 - start_time) (env.wallClock 0)],
      celeryCalls := [] }

/-- The environment of one LoggingMiddleware.dispatch run
(src/src/common_for_services/middleware/logging.py lines 54-88): the request
descriptor — client is request.client, carrying the client host when
present — the response the wrapped handler returns, and the two time.time()
readings. -/
structure LogMwEnv where
  method : String
  path : String
  client : Option String
  handlerResponse : MwResponse
  clock : Nat → Int

/-- One structured log line of LoggingMiddleware.dispatch (lines 76-86 of
logging.py). -/
structure ReqLogEntry where
  package : String
  modulo : String
  event : String
  method : String
  path : String
  client_ip : String
  status_code : Nat
  response_time : Int
deriving DecidableEq

/-- The result of one LoggingMiddleware.dispatch run: whether the handler was
invoked, the log lines emitted, and the outcome (the handler response, or
an uncaught exception). -/
structure LogMwResult where
  handlerInvoked : Bool
  logs : List ReqLogEntry
  outcome : MwOutcome
deriving DecidableEq

/-- Embedding of LoggingMiddleware.dispatch
(src/src/common_for_services/middleware/logging.py lines 54-88).  The
handler is always invoked and its response computed; the local client_ip is
assigned only under the `if request.client` guard, so when request.client is
None the log-dict construction reads an unassigned local and raises
UnboundLocalError after the handler has returned, and the response is never
returned to the caller. -/
def logging_dispatch (env : LogMwEnv) : LogMwResult :=
  let process_time := env.clock 1 - env.clock 0
  match env.client with
  | some host =>
    { handlerInvoked := true,
      logs := [{ package := "middleware", modulo := "logging.LoggingMiddleware",
                 event := "http/https_request", method := env.method,
                 path := env.path, client_ip := host,
                 status_code := env.handlerResponse.status_code,
                 response_time := process_time }],
      outcome := .response env.handlerResponse }
  | none =>
    { handlerInvoked := true,
      logs := [],
      outcome := .raised "UnboundLocalError: client_ip" }

/-- Channel-invocation sequence of send_alert in src/utils/alerts.py
(lines 175-197), read off the if/elif chain and the trailing webhook call;
the webhook payload carries the AlertSeverity enum member. -/
def send_alert_calls_utils (subject message : String) :
    AlertSeverity → List (ChannelCall AlertSeverity)
  | .CRITICAL =>
    [.email subject message, .slack ("*CRITICAL ALERT*: " ++ message),
     .sms message, .webhook subject message .CRITICAL]
  | .WARNING =>
    [.email subject message, .slack ("*WARNING ALERT*: " ++ message),
     .webhook subject message .WARNING]
  | .INFO =>
    [.slack ("*INFO ALERT*: " ++ message), .webhook subject message .INFO]

/-- Channel-invocation sequence of send_alert in
src/src/common_for_services/notification/alerts.py (lines 13-26), read off
the if/elif chain on the severity string and the trailing webhook call; the
webhook payload carries the severity string. -/
def send_alert_calls_notif (subject message : String) (severity : String) :
    List (ChannelCall String) :=
  (if severity = "CRITICAL" then
    [.email subject message, .slack ("*CRITICAL ALERT*: " ++ message),
     .sms message]
   else if severity = "WARNING" then
    [.email subject message, .slack ("*WARNING ALERT*: " ++ message)]
   else if severity = "INFO" then
    [.slack ("*INFO ALERT*: " ++ message)]
   else []) ++ [.webhook subject message severity]

/-- Maps the severity argument carried by a webhook invocation. -/
def ChannelCall.mapSeverity {σ τ : Type} (f : σ → τ) :
    ChannelCall σ → ChannelCall τ
  | .email s b => .email s b
  | .slack m => .slack m
  | .sms m => .sms m
  | .webhook s m sv => .webhook s m (f sv)

/-- When no step behaviour raises anything, runChannels performs every
invocation in order, concatenates the log lines, and raises nothing. -/
theorem runChannels_eq_of_no_raise
    (steps : List (ChannelCall AlertSeverity × (List AlertLogEntry × Option String)))
    (h : ∀ p ∈ steps, p.2.2 = none) :
    runChannels steps =
      (steps.map Prod.fst, (steps.map fun p => p.2.1).flatten, none) := by
  induction steps with
  | nil => rfl
  | cons p rest ih =>
    obtain ⟨c, ls, exc⟩ := p
    have hp : exc = none := h (c, ls, exc) (List.mem_cons_self _ _)
    subst hp
    have ih2 := ih (fun q hq => h q (List.mem_cons_of_mem _ hq))
    simp [runChannels, ih2]

/-- send_alert_email raises nothing when the EmailMessage construction
succeeds: the SMTP steps are inside the try block. -/
theorem send_alert_email_no_raise (env : AlertEnv) (s b : String)
    (hb : env.emailBuildErr = none) : (send_alert_email env s b).2 = none := by
  unfold send_alert_email
  rw [hb]
  cases env.emailSendErr <;> rfl

/-- send_slack_alert never raises: the post is inside the try block and the
unconfigured case returns early. -/
theorem send_slack_alert_no_raise (env : AlertEnv) (m : String) :
    (send_slack_alert env m).2 = none := by
  unfold send_slack_alert
  split
  · rfl
  · cases env.slackPostErr <;> rfl

/-- send_sms_alert raises nothing when the Client construction succeeds: the
create call is inside the try block and the unconfigured case returns
early. -/
theorem send_sms_alert_no_raise (env : AlertEnv) (m : String)
    (hs : env.smsClientErr = none) : (send_sms_alert env m).2 = none := by
  unfold send_sms_alert
  split
  · rfl
  · rw [hs]
    cases env.smsCreateErr <;> rfl

/-- send_webhook_alert never raises: the post is inside the try block and the
unconfigured case returns early. -/
theorem send_webhook_alert_no_raise (env : AlertEnv) :
    (send_webhook_alert env).2 = none := by
  unfold send_webhook_alert
  split
  · rfl
  · cases env.webhookPostErr <;> rfl

/-- The outcomes read off one send_alert_email invocation concern exactly the
email channel. -/
theorem email_outcome_channels (env : AlertEnv) (s b : String)
    (hb : env.emailBuildErr = none) :
    (dispatchOutcomes (send_alert_email env s b).1).map DispatchOutcome.channel_name
      = [ChannelName.email] := by
  unfold send_alert_email
  rw [hb]
  cases env.emailSendErr <;> rfl

/-- The outcomes read off one send_slack_alert invocation concern exactly the
slack channel. -/
theorem slack_outcome_channels (env : AlertEnv) (m : String) :
    (dispatchOutcomes (send_slack_alert env m).1).map DispatchOutcome.channel_name
      = [ChannelName.slack] := by
  unfold send_slack_alert
  split
  · rfl
  · cases env.slackPostErr <;> rfl

/-- The outcomes read off one send_sms_alert invocation concern exactly the
sms channel. -/
theorem sms_outcome_channels (env : AlertEnv) (m : String)
    (hs : env.smsClientErr = none) :
    (dispatchOutcomes (send_sms_alert env m).1).map DispatchOutcome.channel_name
      = [ChannelName.sms] := by
  unfold send_sms_alert
  split
  · rfl
  · rw [hs]
    cases env.smsCreateErr <;> rfl

/-- The outcomes read off one send_webhook_alert invocation concern exactly
the webhook channel. -/
theorem webhook_outcome_channels (env : AlertEnv) :
    (dispatchOutcomes (send_webhook_alert env).1).map DispatchOutcome.channel_name
      = [ChannelName.webhook] := by
  unfold send_webhook_alert
  split
  · rfl
  · cases env.webhookPostErr <;> rfl

/-- dispatchOutcomes distributes over list concatenation. -/
theorem dispatchOutcomes_append (a b : List AlertLogEntry) :
    dispatchOutcomes (a ++ b) = dispatchOutcomes a ++ dispatchOutcomes b :=
  List.filterMap_append a b _

/-- The initial dispatcher info line carries no channel outcome. -/
theorem dispatchOutcomes_dispatching_cons (sev : AlertSeverity) (s : String)
    (l : List AlertLogEntry) :
    dispatchOutcomes (.dispatching sev s :: l) = dispatchOutcomes l := by
  simp [dispatchOutcomes]

/-- The log lines the severity branch and the trailing webhook call of
send_alert produce, in order, when no channel raises. -/
def alertBranchLogs (env : AlertEnv) (s m : String) : AlertSeverity → List AlertLogEntry
  | .CRITICAL =>
    (send_alert_email env s m).1 ++
    ((send_slack_alert env ("*CRITICAL ALERT*: " ++ m)).1 ++
     ((send_sms_alert env m).1 ++ (send_webhook_alert env).1))
  | .WARNING =>
    (send_alert_email env s m).1 ++
    ((send_slack_alert env ("*WARNING ALERT*: " ++ m)).1 ++
     (send_webhook_alert env).1)
  | .INFO =>
    (send_slack_alert env ("*INFO ALERT*: " ++ m)).1 ++
    (send_webhook_alert env).1

/-- When neither the EmailMessage construction nor the Twilio Client
construction raises, a send_alert run performs every invocation of its
severity branch plus the webhook call, emits the initial info line followed
by the log lines of each channel, and raises nothing. -/
theorem send_alert_eq_of_no_raise (env : AlertEnv) (s m : String)
    (sev : AlertSeverity) (hb : env.emailBuildErr = none)
    (hs : env.smsClientErr = none) :
    send_alert env s m sev =
      { ret := (), calls := send_alert_calls_utils s m sev,
        logs := .dispatching sev s :: alertBranchLogs env s m sev,
        raised := none } := by
  cases sev with
  | CRITICAL =>
    simp only [send_alert]
    rw [runChannels_eq_of_no_raise _ (by
      intro p hp
      simp only [List.cons_append, List.nil_append, List.mem_cons,
        List.not_mem_nil, or_false] at hp
      rcases hp with rfl | rfl | rfl | rfl
      · exact send_alert_email_no_raise env s m hb
      · exact send_slack_alert_no_raise env ("*CRITICAL ALERT*: " ++ m)
      · exact send_sms_alert_no_raise env m hs
      · exact send_webhook_alert_no_raise env)]
    simp [send_alert_calls_utils, alertBranchLogs]
  | WARNING =>
    simp only [send_alert]
    rw [runChannels_eq_of_no_raise _ (by
      intro p hp
      simp only [List.cons_append, List.nil_append, List.mem_cons,
        List.not_mem_nil, or_false] at hp
      rcases hp with rfl | rfl | rfl
      · exact send_alert_email_no_raise env s m hb
      · exact send_slack_alert_no_raise env ("*WARNING ALERT*: " ++ m)
      · exact send_webhook_alert_no_raise env)]
    simp [send_alert_calls_utils, alertBranchLogs]
  | INFO =>
    simp only [send_alert]
    rw [runChannels_eq_of_no_raise _ (by
      intro p hp
      simp only [List.cons_append, List.nil_append, List.mem_cons,
        List.not_mem_nil, or_false] at hp
      rcases hp with rfl | rfl
      · exact send_slack_alert_no_raise env ("*INFO ALERT*: " ++ m)
      · exact send_webhook_alert_no_raise env)]
    simp [send_alert_calls_utils, alertBranchLogs]

/-- A fully configured run in which every external step succeeds. -/
def envAllOk : AlertEnv :=
  { cfg := { SLACK_WEBHOOK_URL := "https://hooks.slack.example/T1",
             TWILIO_ACCOUNT_SID := "AC123", TWILIO_AUTH_TOKEN := "token",
             WEBHOOK_URL := "https://alerts.example/hook" },
    emailBuildErr := none, emailSendErr := none, slackPostErr := none,
    smsClientErr := none, smsCreateErr := none, webhookPostErr := none }

/-- C3: for every subject, message and severity, and every run in which
neither unguarded construction step raises, send_alert invokes exactly the
channels of the fixed routing table for that severity, in the stated order,
each exactly once: CRITICAL invokes Email, Chat, SMS, Webhook; WARNING
invokes Email, Chat, Webhook; INFO invokes Chat, Webhook; and no channel
outside the routing set is invoked. -/
theorem send_alert_invokes_routing_table (env : AlertEnv)
    (subject message : String) (sev : AlertSeverity)
    (hb : env.emailBuildErr = none) (hs : env.smsClientErr = none) :
    (send_alert env subject message sev).calls.map ChannelCall.channelOf
      = routingTable sev := by
  rw [send_alert_eq_of_no_raise env subject message sev hb hs]
  cases sev <;> rfl

/-- Witness for C3 at a concrete fully configured run and a CRITICAL event. -/
theorem send_alert_invokes_routing_table_witness :
    envAllOk.emailBuildErr = none ∧ envAllOk.smsClientErr = none ∧
    (send_alert envAllOk "Database Connection Failure"
        "The database server is unreachable" .CRITICAL).calls.map
        ChannelCall.channelOf = routingTable .CRITICAL :=
  ⟨rfl, rfl,
   send_alert_invokes_routing_table envAllOk "Database Connection Failure"
     "The database server is unreachable" .CRITICAL rfl rfl⟩

/-- A fully configured run in which the EmailMessage construction — the step
of send_alert_email that runs before its try block — raises. -/
def envEmailBuildFails : AlertEnv :=
  { envAllOk with emailBuildErr := some "header construction failed" }

/-- A fully configured run in which the Twilio Client construction — the step
of send_sms_alert that runs before its try block — raises. -/
def envSmsClientFails : AlertEnv :=
  { envAllOk with smsClientErr := some "invalid credentials" }

/-- C4 is violated by the code: when the email message construction raises
during a CRITICAL dispatch, the exception escapes send_alert and the chat,
SMS and webhook channels are never invoked; when the SMS provider client
construction raises, the exception escapes and the webhook is never
invoked. -/
theorem send_alert_construction_failure_aborts_dispatch :
    (send_alert envEmailBuildFails "Database Error" "connection lost"
        .CRITICAL).raised = some "header construction failed" ∧
    (send_alert envEmailBuildFails "Database Error" "connection lost"
        .CRITICAL).calls.map ChannelCall.channelOf = [ChannelName.email] ∧
    (send_alert envSmsClientFails "Database Error" "connection lost"
        .CRITICAL).raised = some "invalid credentials" ∧
    (send_alert envSmsClientFails "Database Error" "connection lost"
        .CRITICAL).calls.map ChannelCall.channelOf
      = [ChannelName.email, ChannelName.slack, ChannelName.sms] := by
  refine ⟨rfl, rfl, rfl, rfl⟩

/-- C9: the two dispatcher implementations — send_alert over the
AlertSeverity enum in src/utils/alerts.py and send_alert over a severity
string in src/src/common_for_services/notification/alerts.py — invoke the
same channels with the same subject and message arguments in the same
order, once each enum member is identified with its string name. -/
theorem dispatchers_invoke_same_channels (subject message : String)
    (sev : AlertSeverity) :
    (send_alert_calls_utils subject message sev).map
        (ChannelCall.mapSeverity AlertSeverity.name)
      = send_alert_calls_notif subject message sev.name := by
  cases sev <;> rfl

/-- C5 is violated by the code: send_alert has no return statement, so its
return value carries no information, and no reading of that return value
can yield the per-channel outcome sequence — the outcome sequences of a
CRITICAL and an INFO dispatch differ while the return values coincide. -/
theorem send_alert_return_value_carries_no_outcomes :
    ¬ ∃ f : Unit → List DispatchOutcome,
      f (send_alert envAllOk "subject" "message" .CRITICAL).ret
          = dispatchOutcomes (send_alert envAllOk "subject" "message" .CRITICAL).logs ∧
      f (send_alert envAllOk "subject" "message" .INFO).ret
          = dispatchOutcomes (send_alert envAllOk "subject" "message" .INFO).logs := by
  rintro ⟨f, h1, h2⟩
  have e1 : (send_alert envAllOk "subject" "message" .CRITICAL).ret = () := rfl
  have e2 : (send_alert envAllOk "subject" "message" .INFO).ret = () := rfl
  rw [e1] at h1
  rw [e2] at h2
  rw [h1] at h2
  exact absurd h2 (by decide)

/-- C5 amended: send_alert returns no value; the ordered per-channel outcome
records are recoverable from the emitted log lines instead, and for every
run in which neither unguarded construction step raises they contain
exactly one record per channel attempted for the severity, in routing
order. -/
theorem dispatch_outcomes_one_per_attempted_channel (env : AlertEnv)
    (subject message : String) (sev : AlertSeverity)
    (hb : env.emailBuildErr = none) (hs : env.smsClientErr = none) :
    (send_alert env subject message sev).ret = () ∧
    (dispatchOutcomes (send_alert env subject message sev).logs).map
        DispatchOutcome.channel_name = routingTable sev := by
  refine ⟨rfl, ?_⟩
  rw [send_alert_eq_of_no_raise env subject message sev hb hs]
  cases sev <;>
    simp [alertBranchLogs, dispatchOutcomes_dispatching_cons,
      dispatchOutcomes_append, List.map_append,
      email_outcome_channels env subject message hb,
      slack_outcome_channels, sms_outcome_channels env message hs,
      webhook_outcome_channels, routingTable]

/-- Witness for the amended C5 at a concrete fully configured run and a
WARNING event. -/
theorem dispatch_outcomes_one_per_attempted_channel_witness :
    envAllOk.emailBuildErr = none ∧ envAllOk.smsClientErr = none ∧
    ((send_alert envAllOk "Disk almost full" "85 percent used" .WARNING).ret = () ∧
     (dispatchOutcomes (send_alert envAllOk "Disk almost full"
         "85 percent used" .WARNING).logs).map DispatchOutcome.channel_name
       = routingTable .WARNING) :=
  ⟨rfl, rfl,
   dispatch_outcomes_one_per_attempted_channel envAllOk "Disk almost full"
     "85 percent used" .WARNING rfl rfl⟩

/-- With an empty SLACK_WEBHOOK_URL, send_slack_alert logs only the warning
line, which reads back as the unconfigured outcome. -/
theorem slack_unconfigured_outcome (env : AlertEnv) (m : String)
    (h : env.cfg.SLACK_WEBHOOK_URL = "") :
    dispatchOutcomes (send_slack_alert env m).1
      = [⟨.slack, false, some "unconfigured"⟩] := by
  unfold send_slack_alert
  rw [h]
  simp [dispatchOutcomes]

/-- With an empty WEBHOOK_URL, send_webhook_alert logs only the warning line,
which reads back as the unconfigured outcome. -/
theorem webhook_unconfigured_outcome (env : AlertEnv)
    (h : env.cfg.WEBHOOK_URL = "") :
    dispatchOutcomes (send_webhook_alert env).1
      = [⟨.webhook, false, some "unconfigured"⟩] := by
  unfold send_webhook_alert
  rw [h]
  simp [dispatchOutcomes]

/-- C7: in every run in which neither unguarded construction step raises, a
CRITICAL dispatch with the chat endpoint and the generic webhook URL absent
never throws; the skipped channels report succeeded false with error
"unconfigured" at their positions in the outcome sequence, and every
channel of the routing order is still invoked. -/
theorem unconfigured_channel_skips_without_throwing (env : AlertEnv)
    (subject message : String)
    (hb : env.emailBuildErr = none) (hs : env.smsClientErr = none)
    (hslack : env.cfg.SLACK_WEBHOOK_URL = "")
    (hhook : env.cfg.WEBHOOK_URL = "") :
    (send_alert env subject message .CRITICAL).raised = none ∧
    (send_alert env subject message .CRITICAL).calls.map ChannelCall.channelOf
      = routingTable .CRITICAL ∧
    (dispatchOutcomes (send_alert env subject message .CRITICAL).logs)[1]?
      = some ⟨.slack, false, some "unconfigured"⟩ ∧
    (dispatchOutcomes (send_alert env subject message .CRITICAL).logs)[3]?
      = some ⟨.webhook, false, some "unconfigured"⟩ := by
  obtain ⟨o1, h1⟩ : ∃ o, dispatchOutcomes (send_alert_email env subject message).1 = [o] := by
    unfold send_alert_email
    rw [hb]
    cases env.emailSendErr <;> exact ⟨_, rfl⟩
  obtain ⟨o3, h3⟩ : ∃ o, dispatchOutcomes (send_sms_alert env message).1 = [o] := by
    unfold send_sms_alert
    split
    · exact ⟨_, rfl⟩
    · rw [hs]
      cases env.smsCreateErr <;> exact ⟨_, rfl⟩
  rw [send_alert_eq_of_no_raise env subject message .CRITICAL hb hs]
  refine ⟨rfl, rfl, ?_, ?_⟩ <;>
    simp [alertBranchLogs, dispatchOutcomes_dispatching_cons,
      dispatchOutcomes_append, h1, h3,
      slack_unconfigured_outcome env _ hslack,
      webhook_unconfigured_outcome env hhook]

/-- A run with the chat endpoint and the generic webhook URL absent and every
other external step succeeding. -/
def envNoChatNoHook : AlertEnv :=
  { cfg := { SLACK_WEBHOOK_URL := "", TWILIO_ACCOUNT_SID := "AC123",
             TWILIO_AUTH_TOKEN := "token", WEBHOOK_URL := "" },
    emailBuildErr := none, emailSendErr := none, slackPostErr := none,
    smsClientErr := none, smsCreateErr := none, webhookPostErr := none }

/-- Witness for C7 at a concrete run with chat and webhook unconfigured. -/
theorem unconfigured_channel_skips_without_throwing_witness :
    envNoChatNoHook.emailBuildErr = none ∧
    envNoChatNoHook.smsClientErr = none ∧
    envNoChatNoHook.cfg.SLACK_WEBHOOK_URL = "" ∧
    envNoChatNoHook.cfg.WEBHOOK_URL = "" ∧
    ((send_alert envNoChatNoHook "DB down" "no connection" .CRITICAL).raised = none ∧
     (send_alert envNoChatNoHook "DB down" "no connection" .CRITICAL).calls.map
        ChannelCall.channelOf = routingTable .CRITICAL ∧
     (dispatchOutcomes (send_alert envNoChatNoHook "DB down" "no connection"
         .CRITICAL).logs)[1]? = some ⟨.slack, false, some "unconfigured"⟩ ∧
     (dispatchOutcomes (send_alert envNoChatNoHook "DB down" "no connection"
         .CRITICAL).logs)[3]? = some ⟨.webhook, false, some "unconfigured"⟩) :=
  ⟨rfl, rfl, rfl, rfl,
   unconfigured_channel_skips_without_throwing envNoChatNoHook "DB down"
     "no connection" rfl rfl rfl rfl⟩

/-- A run whose handler raises a SQLAlchemyError, with a Celery app injected
and log emission and task submission succeeding. -/
def envDbErr : MwEnv :=
  { method := "POST", path := "/orders",
    handler := .sqlalchemyError "duplicate key",
    celeryPresent := true, logErrorRaises := none, celerySendRaises := none,
    clock := fun n => (n : Int), wallClock := fun _ => 100 }

/-- C1: for every request whose wrapped handler raises a SQLAlchemyError
(with log emission and task submission succeeding), dispatch returns the
fixed response with status 500 and the JSON object with status error and
message Error interno en el sistema, for every underlying error text, and
emits exactly one error-level log entry, whose event is
db_transaction_error. -/
theorem db_error_returns_generic_500 (env : MwEnv) (e : String)
    (hh : env.handler = .sqlalchemyError e)
    (hl : env.logErrorRaises = none)
    (hc : env.celerySendRaises = none) :
    (db_dispatch env).outcome = .response internalErrorResponse ∧
    internalErrorResponse.status_code = 500 ∧
    internalErrorResponse.content
      = [("status", "error"), ("message", "Error interno en el sistema")] ∧
    (db_dispatch env).logs.filter (fun l => l.level == MwLevel.error)
      = [errorEntry env e (env.clock 1 - env.clock 0) (env.wallClock 0)] ∧
    (errorEntry env e (env.clock 1 - env.clock 0) (env.wallClock 0)).event
      = "db_transaction_error" := by
  refine ⟨?_, rfl, rfl, ?_, rfl⟩ <;>
  · simp only [db_dispatch, hh, hl]
    cases hcp : env.celeryPresent <;>
      simp [hcp, hc, errorEntry, completeEntry, List.filter,
        show (MwLevel.error == MwLevel.error) = true from rfl,
        show (MwLevel.info == MwLevel.error) = false from rfl]

/-- Witness for C1 at a concrete failing run. -/
theorem db_error_returns_generic_500_witness :
    envDbErr.handler = .sqlalchemyError "duplicate key" ∧
    envDbErr.logErrorRaises = none ∧
    envDbErr.celerySendRaises = none ∧
    ((db_dispatch envDbErr).outcome = .response internalErrorResponse ∧
     internalErrorResponse.status_code = 500 ∧
     internalErrorResponse.content
       = [("status", "error"), ("message", "Error interno en el sistema")] ∧
     (db_dispatch envDbErr).logs.filter (fun l => l.level == MwLevel.error)
       = [errorEntry envDbErr "duplicate key"
            (envDbErr.clock 1 - envDbErr.clock 0) (envDbErr.wallClock 0)] ∧
     (errorEntry envDbErr "duplicate key"
        (envDbErr.clock 1 - envDbErr.clock 0) (envDbErr.wallClock 0)).event
       = "db_transaction_error") :=
  ⟨rfl, rfl, rfl,
   db_error_returns_generic_500 envDbErr "duplicate key" rfl rfl rfl⟩

/-- C2 is violated by the code: on a failing request the except clause emits
the error entry and the finally block then emits the completion entry as
well, so this concrete failing request emits two log entries, not one. -/
theorem db_error_path_emits_two_entries :
    ((db_dispatch envDbErr).logs.map MwLogEntry.event)
      = ["db_transaction_error", "db_transaction_complete"] ∧
    (db_dispatch envDbErr).logs.length ≠ 1 :=
  ⟨rfl, by decide⟩

/-- C2 amended: with log emission and task submission succeeding, a request
that returns normally emits exactly one log entry (the completion entry),
while a request that raises a SQLAlchemyError emits exactly two — the error
entry followed by the completion entry the finally block emits on every
path — never exactly one. -/
theorem log_entries_per_request (env : MwEnv)
    (hl : env.logErrorRaises = none) (hc : env.celerySendRaises = none) :
    (∀ r, env.handler = .ok r →
      (db_dispatch env).logs.map MwLogEntry.event = ["db_transaction_complete"]) ∧
    (∀ e, env.handler = .sqlalchemyError e →
      (db_dispatch env).logs.map MwLogEntry.event
        = ["db_transaction_error", "db_transaction_complete"]) := by
  constructor
  · intro r hh
    simp [db_dispatch, hh, completeEntry]
  · intro e hh
    simp only [db_dispatch, hh, hl]
    cases hcp : env.celeryPresent <;>
      simp [hcp, hc, errorEntry, completeEntry]

/-- Witness for the amended C2 at a concrete failing run. -/
theorem log_entries_per_request_witness :
    envDbErr.logErrorRaises = none ∧ envDbErr.celerySendRaises = none ∧
    ((∀ r, envDbErr.handler = .ok r →
       (db_dispatch envDbErr).logs.map MwLogEntry.event = ["db_transaction_complete"]) ∧
     (∀ e, envDbErr.handler = .sqlalchemyError e →
       (db_dispatch envDbErr).logs.map MwLogEntry.event
         = ["db_transaction_error", "db_transaction_complete"])) :=
  ⟨rfl, rfl, log_entries_per_request envDbErr rfl rfl⟩

/-- A run whose handler raises a SQLAlchemyError and whose first Celery
send_task call itself raises. -/
def envCeleryFails : MwEnv :=
  { method := "GET", path := "/items",
    handler := .sqlalchemyError "db down",
    celeryPresent := true, logErrorRaises := none,
    celerySendRaises := some "celery unreachable",
    clock := fun n => (n : Int), wallClock := fun _ => 5 }

/-- C6 is violated by the code: nothing guards the send_task hand-off, so on
this concrete failing request whose submission raises, the exception
escapes dispatch and the already-computed generic 500 response is not
returned. -/
theorem submission_failure_replaces_response :
    (db_dispatch envCeleryFails).outcome = .raised "celery unreachable" ∧
    (db_dispatch envCeleryFails).outcome ≠ .response internalErrorResponse :=
  ⟨rfl, by decide⟩

/-- C6 amended: for every request whose handler raises a SQLAlchemyError, if
the dispatch submission (the Celery send_task hand-off) itself raises (log
emission succeeding), the failure is not swallowed: no task is recorded as
submitted, the exception escapes dispatch, and the generic 500 response is
not returned. -/
theorem submission_failure_escapes_dispatch (env : MwEnv) (e ex : String)
    (hh : env.handler = .sqlalchemyError e)
    (hl : env.logErrorRaises = none)
    (hp : env.celeryPresent = true)
    (hc : env.celerySendRaises = some ex) :
    (db_dispatch env).outcome = .raised ex ∧
    (db_dispatch env).celeryCalls = [] ∧
    ∀ r, (db_dispatch env).outcome ≠ .response r := by
  simp [db_dispatch, hh, hl, hp, hc]

/-- Witness for the amended C6 at a concrete run whose submission raises. -/
theorem submission_failure_escapes_dispatch_witness :
    envCeleryFails.handler = .sqlalchemyError "db down" ∧
    envCeleryFails.logErrorRaises = none ∧
    envCeleryFails.celeryPresent = true ∧
    envCeleryFails.celerySendRaises = some "celery unreachable" ∧
    ((db_dispatch envCeleryFails).outcome = .raised "celery unreachable" ∧
     (db_dispatch envCeleryFails).celeryCalls = [] ∧
     ∀ r, (db_dispatch envCeleryFails).outcome ≠ .response r) :=
  ⟨rfl, rfl, rfl, rfl,
   submission_failure_escapes_dispatch envCeleryFails "db down"
     "celery unreachable" rfl rfl rfl rfl⟩

/-- C8: for every request whose wrapped handler returns normally, dispatch
returns the handler response unchanged and emits exactly one log entry —
the completion entry, whose event is db_transaction_complete and whose
recorded duration is nonnegative when the clock is monotone. -/
theorem normal_return_unchanged_one_complete_entry (env : MwEnv)
    (r : MwResponse) (hh : env.handler = .ok r)
    (hmono : env.clock 0 ≤ env.clock 1) :
    (db_dispatch env).outcome = .response r ∧
    (db_dispatch env).logs
      = [completeEntry env (env.clock 1 - env.clock 0) (env.wallClock 0)] ∧
    (completeEntry env (env.clock 1 - env.clock 0) (env.wallClock 0)).event
      = "db_transaction_complete" ∧
    0 ≤ (completeEntry env (env.clock 1 - env.clock 0)
          (env.wallClock 0)).response_time := by
  refine ⟨?_, ?_, rfl, ?_⟩
  · simp [db_dispatch, hh]
  · simp [db_dispatch, hh]
  · simpa [completeEntry] using sub_nonneg.mpr hmono

/-- A plain 200 response for the successful-run witness. -/
def okResp : MwResponse :=
  { content := [("status", "ok")], media_type := "application/json",
    status_code := 200 }

/-- A run whose handler returns a 200 response normally. -/
def envOkReq : MwEnv :=
  { method := "GET", path := "/health", handler := .ok okResp,
    celeryPresent := false, logErrorRaises := none, celerySendRaises := none,
    clock := fun n => (n : Int), wallClock := fun _ => 50 }

/-- Witness for C8 at a concrete successful run. -/
theorem normal_return_unchanged_one_complete_entry_witness :
    envOkReq.handler = .ok okResp ∧
    envOkReq.clock 0 ≤ envOkReq.clock 1 ∧
    ((db_dispatch envOkReq).outcome = .response okResp ∧
     (db_dispatch envOkReq).logs
       = [completeEntry envOkReq (envOkReq.clock 1 - envOkReq.clock 0)
            (envOkReq.wallClock 0)] ∧
     (completeEntry envOkReq (envOkReq.clock 1 - envOkReq.clock 0)
        (envOkReq.wallClock 0)).event = "db_transaction_complete" ∧
     0 ≤ (completeEntry envOkReq (envOkReq.clock 1 - envOkReq.clock 0)
            (envOkReq.wallClock 0)).response_time) :=
  ⟨rfl, by decide,
   normal_return_unchanged_one_complete_entry envOkReq okResp rfl (by decide)⟩

/-- C10: LoggingMiddleware.dispatch always invokes the handler, returns the
handler response exactly when the request carries a client address, and
fails with the unbound client_ip local — after the handler has returned —
exactly when request.client is None. -/
theorem logging_dispatch_requires_client (env : LogMwEnv) :
    (logging_dispatch env).handlerInvoked = true ∧
    ((logging_dispatch env).outcome = .response env.handlerResponse
      ↔ env.client.isSome) ∧
    ((logging_dispatch env).outcome = .raised "UnboundLocalError: client_ip"
      ↔ env.client.isNone) := by
  cases hc : env.client <;> simp [logging_dispatch, hc]
